import Mathlib

/-
  Shallow embedding of the wgpu_glyph instance pipeline (src/pipeline.rs).

  Floating point values (f32) are modelled as exact rationals: all the
  arithmetic in the source is plain +, -, *, / and comparisons, and the
  claims under study are about the algebraic structure of the clipping
  math and the control flow of the pipeline, not about rounding.
  Division in the model is total (x / 0 = 0), matching the fact that
  f32 division never panics; a separate divisor-tracking definition is
  used to reason about division by zero.
-/

namespace WgpuGlyph

/-- A 2D point, as in ab_glyph::Point (fields x, y). -/
structure Point where
  x : ℚ
  y : ℚ
deriving DecidableEq

/-- An axis-aligned rectangle, as in ab_glyph::Rect (fields min, max). -/
structure Rect where
  min : Point
  max : Point
deriving DecidableEq

/-- ab_glyph::Rect::width(): max.x - min.x. -/
def Rect.width (r : Rect) : ℚ := r.max.x - r.min.x

/-- ab_glyph::Rect::height(): max.y - min.y. -/
def Rect.height (r : Rect) : ℚ := r.max.y - r.min.y

/-- glyph_brush Extra: per-glyph depth (z) and RGBA color. -/
structure Extra where
  color : ℚ × ℚ × ℚ × ℚ
  z : ℚ
deriving DecidableEq

/-- glyph_brush::GlyphVertex, the input of Instance::from_vertex. -/
structure GlyphVertex where
  tex_coords : Rect
  pixel_coords : Rect
  bounds : Rect
  extra : Extra
deriving DecidableEq

/-- The GPU instance record written by the vertex encoder
    (struct Instance in pipeline.rs). -/
structure Instance where
  left_top : ℚ × ℚ × ℚ
  right_bottom : ℚ × ℚ
  tex_left_top : ℚ × ℚ
  tex_right_bottom : ℚ × ℚ
  color : ℚ × ℚ × ℚ × ℚ
deriving DecidableEq

/-- First clamp in Instance::from_vertex: if gl_rect.max.x > gl_bounds.max.x,
    clamp gl_rect.max.x to the bound and rescale tex_coords.max.x from
    tex_coords.min.x by the width ratio (new width over the width before
    this clamp). State is the pair (gl_rect, tex_coords). -/
def clampMaxX (gl_bounds : Rect) (s : Rect × Rect) : Rect × Rect :=
  if s.1.max.x > gl_bounds.max.x then
    let old_width := s.1.width
    let gl_rect := { s.1 with max := { s.1.max with x := gl_bounds.max.x } }
    (gl_rect,
     { s.2 with max := { s.2.max with x :=
         s.2.min.x + s.2.width * gl_rect.width / old_width } })
  else s

/-- Second clamp in Instance::from_vertex: if gl_rect.min.x < gl_bounds.min.x,
    clamp gl_rect.min.x and rescale tex_coords.min.x from tex_coords.max.x. -/
def clampMinX (gl_bounds : Rect) (s : Rect × Rect) : Rect × Rect :=
  if s.1.min.x < gl_bounds.min.x then
    let old_width := s.1.width
    let gl_rect := { s.1 with min := { s.1.min with x := gl_bounds.min.x } }
    (gl_rect,
     { s.2 with min := { s.2.min with x :=
         s.2.max.x - s.2.width * gl_rect.width / old_width } })
  else s

/-- Third clamp in Instance::from_vertex: if gl_rect.max.y > gl_bounds.max.y,
    clamp gl_rect.max.y and rescale tex_coords.max.y from tex_coords.min.y. -/
def clampMaxY (gl_bounds : Rect) (s : Rect × Rect) : Rect × Rect :=
  if s.1.max.y > gl_bounds.max.y then
    let old_height := s.1.height
    let gl_rect := { s.1 with max := { s.1.max with y := gl_bounds.max.y } }
    (gl_rect,
     { s.2 with max := { s.2.max with y :=
         s.2.min.y + s.2.height * gl_rect.height / old_height } })
  else s

/-- Fourth clamp in Instance::from_vertex: if gl_rect.min.y < gl_bounds.min.y,
    clamp gl_rect.min.y and rescale tex_coords.min.y from tex_coords.max.y. -/
def clampMinY (gl_bounds : Rect) (s : Rect × Rect) : Rect × Rect :=
  if s.1.min.y < gl_bounds.min.y then
    let old_height := s.1.height
    let gl_rect := { s.1 with min := { s.1.min with y := gl_bounds.min.y } }
    (gl_rect,
     { s.2 with min := { s.2.min with y :=
         s.2.max.y - s.2.height * gl_rect.height / old_height } })
  else s

/-- Instance::from_vertex: build gl_rect from pixel_coords (the as-f32 cast
    is the identity in this model), run the four side clamps in source
    order (max-x, min-x, max-y, min-y), then pack the Instance fields with
    the vertical flip: left_top carries (min.x, max.y, extra.z),
    right_bottom carries (max.x, min.y), and likewise for the UV pair. -/
def Instance.from_vertex (v : GlyphVertex) : Instance :=
  let gl_bounds := v.bounds
  let s0 : Rect × Rect :=
    ({ min := { x := v.pixel_coords.min.x, y := v.pixel_coords.min.y },
       max := { x := v.pixel_coords.max.x, y := v.pixel_coords.max.y } },
     v.tex_coords)
  let s := clampMinY gl_bounds (clampMaxY gl_bounds
             (clampMinX gl_bounds (clampMaxX gl_bounds s0)))
  { left_top := (s.1.min.x, s.1.max.y, v.extra.z),
    right_bottom := (s.1.max.x, s.1.min.y),
    tex_left_top := (s.2.min.x, s.2.max.y),
    tex_right_bottom := (s.2.max.x, s.2.min.y),
    color := v.extra.color }

/-- The divisors of the divisions Instance::from_vertex actually performs,
    in execution order: each side clamp that fires divides by the extent of
    the rectangle measured just before that clamp (old_width / old_height),
    the rectangle having already been updated by the earlier clamps. -/
def from_vertexDivisors (v : GlyphVertex) : List ℚ :=
  let gl_bounds := v.bounds
  let s0 : Rect × Rect :=
    ({ min := { x := v.pixel_coords.min.x, y := v.pixel_coords.min.y },
       max := { x := v.pixel_coords.max.x, y := v.pixel_coords.max.y } },
     v.tex_coords)
  let s1 := clampMaxX gl_bounds s0
  let s2 := clampMinX gl_bounds s1
  let s3 := clampMaxY gl_bounds s2
  (if s0.1.max.x > gl_bounds.max.x then [s0.1.width] else []) ++
  (if s1.1.min.x < gl_bounds.min.x then [s1.1.width] else []) ++
  (if s2.1.max.y > gl_bounds.max.y then [s2.1.height] else []) ++
  (if s3.1.min.y < gl_bounds.min.y then [s3.1.height] else [])

/-- Scissor rectangle (struct Region, u32 fields). -/
structure Region where
  x : ℕ
  y : ℕ
  width : ℕ
  height : ℕ
deriving DecidableEq

/-- wgpu::LoadOp for the color attachment. -/
inductive LoadOp where
  | load
  | clear
deriving DecidableEq

/-- wgpu::StoreOp for the color attachment. -/
inductive StoreOp where
  | store
  | discard
deriving DecidableEq

/-- GPU commands recorded by upload and draw, in order. -/
inductive Event where
  | allocInstanceBuffer (capacity_instances : ℕ)
  | writeInstanceBuffer (size_bytes : ℕ)
  | writeTransformBuffer (transform : List ℚ)
  | beginRenderPass (load_op : LoadOp) (store_op : StoreOp) (has_depth : Bool)
  | setPipeline
  | setBindGroup
  | setVertexBuffer
  | setScissorRect (x y width height : ℕ)
  | drawQuads (vertex_start vertex_end instance_start instance_end : ℕ)
deriving DecidableEq

/-- The mutable fields of struct Pipeline relevant to the claims, plus the
    contents of the two GPU buffers it owns. The transform is a [f32; 16]
    array, modelled as a list of rationals. -/
structure Pipeline where
  current_instances : ℕ
  supported_instances : ℕ
  current_transform : List ℚ
  instance_buffer_capacity : ℕ
  transform_buffer : List ℚ
deriving DecidableEq

/-- Instance::INITIAL_AMOUNT = 50_000. -/
def INITIAL_AMOUNT : ℕ := 50000

/-- mem::size_of::<Instance>() = 13 f32 fields * 4 bytes. -/
def instanceSizeBytes : ℕ := 52

/-- const IDENTITY_MATRIX: row-major 4x4 identity, flattened. -/
def IDENTITY_MATRIX : List ℚ :=
  [1, 0, 0, 0,
   0, 1, 0, 0,
   0, 0, 1, 0,
   0, 0, 0, 1]

/-- fn build: the state of a fresh Pipeline. The uniform buffer is created
    initialized to IDENTITY_MATRIX, the instance buffer holds
    INITIAL_AMOUNT instances, and current_transform starts as [0.0; 16]. -/
def build : Pipeline :=
  { current_instances := 0,
    supported_instances := INITIAL_AMOUNT,
    current_transform := List.replicate 16 0,
    instance_buffer_capacity := INITIAL_AMOUNT,
    transform_buffer := IDENTITY_MATRIX }

/-- Pipeline::upload: early-return on empty input (current_instances := 0,
    nothing recorded); otherwise reallocate the instance buffer to exactly
    instances.len() when it exceeds supported_instances, then stage the
    byte copy when its length is nonzero, and set current_instances. -/
def upload (p : Pipeline) (instances : List Instance) :
    Pipeline × List Event :=
  if instances = [] then
    ({ p with current_instances := 0 }, [])
  else
    let grown :=
      if instances.length > p.supported_instances then
        ({ p with instance_buffer_capacity := instances.length,
                  supported_instances := instances.length },
         [Event.allocInstanceBuffer instances.length])
      else (p, ([] : List Event))
    let instances_bytes := instanceSizeBytes * instances.length
    let writes :=
      if instances_bytes ≠ 0 then [Event.writeInstanceBuffer instances_bytes]
      else ([] : List Event)
    ({ grown.1 with current_instances := instances.length },
     grown.2 ++ writes)

/-- fn draw: stage the transform upload when the argument differs from
    current_transform (recording it as the new current_transform), begin a
    load/store render pass over the target, bind pipeline, bind group and
    instance buffer, apply the scissor rectangle when a region is given,
    and record one instanced draw of vertices 0..4 over instances
    0..current_instances. -/
def draw (p : Pipeline) (has_depth : Bool) (transform : List ℚ)
    (region : Option Region) : Pipeline × List Event :=
  let updated :=
    if transform ≠ p.current_transform then
      ({ p with transform_buffer := transform,
                current_transform := transform },
       [Event.writeTransformBuffer transform])
    else (p, ([] : List Event))
  let pass :=
    [Event.beginRenderPass LoadOp.load StoreOp.store has_depth,
     Event.setPipeline, Event.setBindGroup, Event.setVertexBuffer]
  let scissor :=
    match region with
    | some r => [Event.setScissorRect r.x r.y r.width r.height]
    | none => ([] : List Event)
  (updated.1,
   updated.2 ++ pass ++ scissor ++
     [Event.drawQuads 0 4 0 updated.1.current_instances])

/-- One caller-visible mutating call on the Pipeline. -/
inductive Call where
  | upload (instances : List Instance)
  | draw (has_depth : Bool) (transform : List ℚ) (region : Option Region)

/-- The state after one call, discarding the recorded events. -/
def stepCall (p : Pipeline) (c : Call) : Pipeline :=
  match c with
  | Call.upload instances => (upload p instances).1
  | Call.draw d t r => (draw p d t r).1

/-- The state reached from a fresh Pipeline by a sequence of calls. -/
def run (cs : List Call) : Pipeline := cs.foldl stepCall build

/-- true exactly on transform uniform uploads. -/
def isTransformWrite : Event → Bool
  | Event.writeTransformBuffer _ => true
  | _ => false

/-- How many transform uniform uploads a command list records. -/
def transformWrites (evs : List Event) : ℕ :=
  (evs.filter isTransformWrite).length

/-- true exactly on instance buffer reallocations. -/
def isAlloc : Event → Bool
  | Event.allocInstanceBuffer _ => true
  | _ => false

/-- The instance buffer reallocations a command list records. -/
def allocs (evs : List Event) : List Event := evs.filter isAlloc

/-- true exactly on scissor rectangle commands. -/
def isScissor : Event → Bool
  | Event.setScissorRect _ _ _ _ => true
  | _ => false

/-- The scissor commands a command list records. -/
def scissors (evs : List Event) : List Event := evs.filter isScissor

/-- true exactly on instanced draw commands. -/
def isDrawCall : Event → Bool
  | Event.drawQuads _ _ _ _ => true
  | _ => false

/-- The instanced draw commands a command list records. -/
def drawCalls (evs : List Event) : List Event := evs.filter isDrawCall

/-- true exactly on render pass begins. -/
def isPassBegin : Event → Bool
  | Event.beginRenderPass _ _ _ => true
  | _ => false

/-- The render pass begins a command list records. -/
def passBegins (evs : List Event) : List Event := evs.filter isPassBegin

/-- Which of the four clip sides of bounds a rectangle exceeds. -/
inductive Side where
  | maxX
  | minX
  | maxY
  | minY
deriving DecidableEq

/-- The pixel rectangle exceeds bounds on the given side only: strict
    excess on that side, within bounds on the other three. -/
def exceedsOnly (sd : Side) (v : GlyphVertex) : Prop :=
  match sd with
  | Side.maxX =>
      v.bounds.max.x < v.pixel_coords.max.x ∧
      v.bounds.min.x ≤ v.pixel_coords.min.x ∧
      v.pixel_coords.max.y ≤ v.bounds.max.y ∧
      v.bounds.min.y ≤ v.pixel_coords.min.y
  | Side.minX =>
      v.pixel_coords.max.x ≤ v.bounds.max.x ∧
      v.pixel_coords.min.x < v.bounds.min.x ∧
      v.pixel_coords.max.y ≤ v.bounds.max.y ∧
      v.bounds.min.y ≤ v.pixel_coords.min.y
  | Side.maxY =>
      v.pixel_coords.max.x ≤ v.bounds.max.x ∧
      v.bounds.min.x ≤ v.pixel_coords.min.x ∧
      v.bounds.max.y < v.pixel_coords.max.y ∧
      v.bounds.min.y ≤ v.pixel_coords.min.y
  | Side.minY =>
      v.pixel_coords.max.x ≤ v.bounds.max.x ∧
      v.bounds.min.x ≤ v.pixel_coords.min.x ∧
      v.pixel_coords.max.y ≤ v.bounds.max.y ∧
      v.pixel_coords.min.y < v.bounds.min.y

/-- What a single-side clip must produce: the clamped screen side lands on
    the bound, the opposite screen side and the other axis are unchanged,
    the opposite-side UV coordinate is unchanged, and the clamped-side UV
    extent scales by (clamped pixel extent / original pixel extent),
    stated multiplicatively. Instance fields are read back through the
    vertical flip convention of Instance::from_vertex. -/
def singleSideClipSpec (sd : Side) (v : GlyphVertex) (i : Instance) : Prop :=
  match sd with
  | Side.maxX =>
      i.right_bottom.1 = v.bounds.max.x ∧
      i.left_top.1 = v.pixel_coords.min.x ∧
      i.tex_left_top.1 = v.tex_coords.min.x ∧
      (i.tex_right_bottom.1 - i.tex_left_top.1) * v.pixel_coords.width
        = v.tex_coords.width * (v.bounds.max.x - v.pixel_coords.min.x) ∧
      i.left_top.2.1 = v.pixel_coords.max.y ∧
      i.right_bottom.2 = v.pixel_coords.min.y ∧
      i.tex_left_top.2 = v.tex_coords.max.y ∧
      i.tex_right_bottom.2 = v.tex_coords.min.y
  | Side.minX =>
      i.left_top.1 = v.bounds.min.x ∧
      i.right_bottom.1 = v.pixel_coords.max.x ∧
      i.tex_right_bottom.1 = v.tex_coords.max.x ∧
      (i.tex_right_bottom.1 - i.tex_left_top.1) * v.pixel_coords.width
        = v.tex_coords.width * (v.pixel_coords.max.x - v.bounds.min.x) ∧
      i.left_top.2.1 = v.pixel_coords.max.y ∧
      i.right_bottom.2 = v.pixel_coords.min.y ∧
      i.tex_left_top.2 = v.tex_coords.max.y ∧
      i.tex_right_bottom.2 = v.tex_coords.min.y
  | Side.maxY =>
      i.left_top.2.1 = v.bounds.max.y ∧
      i.right_bottom.2 = v.pixel_coords.min.y ∧
      i.tex_right_bottom.2 = v.tex_coords.min.y ∧
      (i.tex_left_top.2 - i.tex_right_bottom.2) * v.pixel_coords.height
        = v.tex_coords.height * (v.bounds.max.y - v.pixel_coords.min.y) ∧
      i.left_top.1 = v.pixel_coords.min.x ∧
      i.right_bottom.1 = v.pixel_coords.max.x ∧
      i.tex_left_top.1 = v.tex_coords.min.x ∧
      i.tex_right_bottom.1 = v.tex_coords.max.x
  | Side.minY =>
      i.right_bottom.2 = v.bounds.min.y ∧
      i.left_top.2.1 = v.pixel_coords.max.y ∧
      i.tex_left_top.2 = v.tex_coords.max.y ∧
      (i.tex_left_top.2 - i.tex_right_bottom.2) * v.pixel_coords.height
        = v.tex_coords.height * (v.pixel_coords.max.y - v.bounds.min.y) ∧
      i.left_top.1 = v.pixel_coords.min.x ∧
      i.right_bottom.1 = v.pixel_coords.max.x ∧
      i.tex_left_top.1 = v.tex_coords.min.x ∧
      i.tex_right_bottom.1 = v.tex_coords.max.x

/-- Every divisor in the list is positive. -/
def allPos (l : List ℚ) : Prop := ∀ d ∈ l, 0 < d

/-- The pixel rectangle lies fully outside bounds beyond the given side:
    past max-x (its min.x at or beyond bounds.max.x), past min-x (its
    max.x at or before bounds.min.x), and the y analogues. -/
def fullyOutside (sd : Side) (v : GlyphVertex) : Prop :=
  match sd with
  | Side.maxX => v.bounds.max.x ≤ v.pixel_coords.min.x
  | Side.minX => v.pixel_coords.max.x ≤ v.bounds.min.x
  | Side.maxY => v.bounds.max.y ≤ v.pixel_coords.min.y
  | Side.minY => v.pixel_coords.max.y ≤ v.bounds.min.y

/-- The degenerate outcome on the axis of the given side: the exceeded
    screen edge is clamped onto the bound, the other edge of that axis is
    untouched, and the resulting extent on that axis is non-positive
    (zero or inverted), read back through the vertical flip convention. -/
def degenerateOn (sd : Side) (v : GlyphVertex) (i : Instance) : Prop :=
  match sd with
  | Side.maxX =>
      i.left_top.1 = v.pixel_coords.min.x ∧
      i.right_bottom.1 = v.bounds.max.x ∧
      i.right_bottom.1 ≤ i.left_top.1
  | Side.minX =>
      i.left_top.1 = v.bounds.min.x ∧
      i.right_bottom.1 = v.pixel_coords.max.x ∧
      i.right_bottom.1 ≤ i.left_top.1
  | Side.maxY =>
      i.left_top.2.1 = v.bounds.max.y ∧
      i.right_bottom.2 = v.pixel_coords.min.y ∧
      i.left_top.2.1 ≤ i.right_bottom.2
  | Side.minY =>
      i.left_top.2.1 = v.pixel_coords.max.y ∧
      i.right_bottom.2 = v.bounds.min.y ∧
      i.left_top.2.1 ≤ i.right_bottom.2

/-- The spec scenario: pixel (0,0)-(100,50), bounds (0,0)-(60,50),
    UV (0,0)-(1,1). -/
def scenarioVertex : GlyphVertex :=
  { tex_coords := { min := { x := 0, y := 0 }, max := { x := 1, y := 1 } },
    pixel_coords := { min := { x := 0, y := 0 }, max := { x := 100, y := 50 } },
    bounds := { min := { x := 0, y := 0 }, max := { x := 60, y := 50 } },
    extra := { color := (0, 0, 0, 1), z := 0 } }

/-- A glyph rectangle fully to the right of bounds on the x axis. -/
def outsideVertex : GlyphVertex :=
  { tex_coords := { min := { x := 0, y := 0 }, max := { x := 1, y := 1 } },
    pixel_coords := { min := { x := 100, y := 0 }, max := { x := 200, y := 50 } },
    bounds := { min := { x := 0, y := 0 }, max := { x := 60, y := 50 } },
    extra := { color := (0, 0, 0, 1), z := 0 } }

/-- A glyph rectangle strictly inside bounds. -/
def insideVertex : GlyphVertex :=
  { tex_coords := { min := { x := 0, y := 0 }, max := { x := 1, y := 1 } },
    pixel_coords := { min := { x := 10, y := 10 }, max := { x := 20, y := 20 } },
    bounds := { min := { x := 0, y := 0 }, max := { x := 60, y := 50 } },
    extra := { color := (1, 0, 0, 1), z := 1/2 } }

/-- A glyph rectangle exceeding bounds on all four sides. -/
def cornerVertex : GlyphVertex :=
  { tex_coords := { min := { x := 0, y := 0 }, max := { x := 1, y := 1 } },
    pixel_coords := { min := { x := -10, y := -20 }, max := { x := 110, y := 60 } },
    bounds := { min := { x := 0, y := 0 }, max := { x := 60, y := 50 } },
    extra := { color := (0, 0, 0, 1), z := 0 } }

/-- An arbitrary instance record, used to build concrete batches. -/
def Instance0 : Instance :=
  { left_top := (0, 0, 0),
    right_bottom := (0, 0),
    tex_left_top := (0, 0),
    tex_right_bottom := (0, 0),
    color := (0, 0, 0, 0) }

-- Helper lemmas shared between the claim theorems.

/-- The state part of draw: only the transform fields can change. -/
theorem draw_fst_eq (p : Pipeline) (d : Bool) (t : List ℚ)
    (r : Option Region) :
    (draw p d t r).1 = if t = p.current_transform then p
      else { p with transform_buffer := t, current_transform := t } := by
  by_cases h : t = p.current_transform <;> simp [draw, h]

/-- draw records one transform upload when the transform differs from the
    cached one, none otherwise. -/
theorem draw_transformWrites_eq (p : Pipeline) (d : Bool) (t : List ℚ)
    (r : Option Region) :
    transformWrites (draw p d t r).2
      = if t = p.current_transform then 0 else 1 := by
  by_cases h : t = p.current_transform <;> cases r <;>
    simp [draw, h, transformWrites, isTransformWrite, List.filter_append]

/-- After draw the cached transform equals the argument. -/
theorem draw_current_transform (p : Pipeline) (d : Bool) (t : List ℚ)
    (r : Option Region) :
    (draw p d t r).1.current_transform = t := by
  rw [draw_fst_eq]
  by_cases h : t = p.current_transform <;> simp [h]

/-- The last element of a list ending in a singleton. -/
theorem getLast_append_singleton {α : Type} (l : List α) (a : α) :
    (l ++ [a]).getLast? = some a := List.getLast?_concat l

/-- The state part of upload, by cases on the input batch. -/
theorem upload_fst_eq (p : Pipeline) (l : List Instance) :
    (upload p l).1 =
      if l = [] then { p with current_instances := 0 }
      else if l.length > p.supported_instances then
        { p with current_instances := l.length,
                 supported_instances := l.length,
                 instance_buffer_capacity := l.length }
      else { p with current_instances := l.length } := by
  by_cases h : l = []
  · simp [upload, h]
  · by_cases hg : l.length > p.supported_instances <;> simp [upload, h, hg]

/-- After any single call, current_instances fits the buffer if it did
    before. -/
theorem stepCall_current_le (p : Pipeline) (c : Call)
    (h : p.current_instances ≤ p.supported_instances) :
    (stepCall p c).current_instances
      ≤ (stepCall p c).supported_instances := by
  cases c with
  | upload l =>
      simp only [stepCall, upload_fst_eq]
      by_cases h0 : l = [] <;>
        by_cases hg : l.length > p.supported_instances <;>
          simp [h0, hg] <;> omega
  | draw d t r =>
      simp only [stepCall, draw_fst_eq]
      by_cases ht : t = p.current_transform <;> simp [ht, h]

/-- No single call shrinks the instance buffer. -/
theorem stepCall_supported_mono (p : Pipeline) (c : Call) :
    p.supported_instances ≤ (stepCall p c).supported_instances := by
  cases c with
  | upload l =>
      simp only [stepCall, upload_fst_eq]
      by_cases h0 : l = [] <;>
        by_cases hg : l.length > p.supported_instances <;>
          simp [h0, hg] <;> omega
  | draw d t r =>
      simp only [stepCall, draw_fst_eq]
      by_cases ht : t = p.current_transform <;> simp [ht]

/-- The count invariant is preserved by any call sequence. -/
theorem foldl_current_le (cs : List Call) (p : Pipeline)
    (h : p.current_instances ≤ p.supported_instances) :
    (cs.foldl stepCall p).current_instances
      ≤ (cs.foldl stepCall p).supported_instances := by
  induction cs generalizing p with
  | nil => simpa using h
  | cons c cs ih => exact ih _ (stepCall_current_le p c h)

/-- supported_instances never decreases along any call sequence. -/
theorem foldl_supported_mono (cs : List Call) (p : Pipeline) :
    p.supported_instances ≤ (cs.foldl stepCall p).supported_instances := by
  induction cs generalizing p with
  | nil => simp
  | cons c cs ih => exact le_trans (stepCall_supported_mono p c) (ih _)

-- Claim theorems.

/-- C1: the transform uniform upload in draw happens exactly when the
    requested 16-float transform differs from the cached last-applied one,
    and the argument is then recorded as the new last-applied transform:
    starting from any state whose cache differs from t, drawing with t
    uploads once, drawing with t again uploads nothing, and drawing with a
    different t' uploads once more. -/
theorem draw_transform_dirty_protocol (p : Pipeline) (d₁ d₂ d₃ : Bool)
    (t t' : List ℚ) (r₁ r₂ r₃ : Option Region)
    (hfresh : t ≠ p.current_transform) (hdiff : t' ≠ t) :
    transformWrites (draw p d₁ t r₁).2 = 1 ∧
    (draw p d₁ t r₁).1.current_transform = t ∧
    transformWrites (draw (draw p d₁ t r₁).1 d₂ t r₂).2 = 0 ∧
    (draw (draw p d₁ t r₁).1 d₂ t r₂).1.current_transform = t ∧
    transformWrites
      (draw (draw (draw p d₁ t r₁).1 d₂ t r₂).1 d₃ t' r₃).2 = 1 ∧
    (draw (draw (draw p d₁ t r₁).1 d₂ t r₂).1 d₃ t' r₃).1.current_transform
      = t' := by
  have e1 := draw_current_transform p d₁ t r₁
  have e2 := draw_current_transform (draw p d₁ t r₁).1 d₂ t r₂
  refine ⟨?_, e1, ?_, e2, ?_, draw_current_transform _ d₃ t' r₃⟩
  · rw [draw_transformWrites_eq, if_neg hfresh]
  · rw [draw_transformWrites_eq, if_pos e1.symm]
  · rw [draw_transformWrites_eq, e2, if_neg hdiff]

/-- C1 witness: a fresh Pipeline drawn with the identity matrix, the
    identity again, and then a different matrix uploads on the first and
    third calls only. -/
theorem draw_transform_dirty_protocol_witness :
    (IDENTITY_MATRIX ≠ build.current_transform) ∧
    (List.replicate 16 (2 : ℚ) ≠ IDENTITY_MATRIX) ∧
    (transformWrites (draw build false IDENTITY_MATRIX none).2 = 1 ∧
     (draw build false IDENTITY_MATRIX none).1.current_transform
       = IDENTITY_MATRIX ∧
     transformWrites
       (draw (draw build false IDENTITY_MATRIX none).1 false
         IDENTITY_MATRIX none).2 = 0 ∧
     (draw (draw build false IDENTITY_MATRIX none).1 false
         IDENTITY_MATRIX none).1.current_transform = IDENTITY_MATRIX ∧
     transformWrites
       (draw (draw (draw build false IDENTITY_MATRIX none).1 false
           IDENTITY_MATRIX none).1 false
         (List.replicate 16 (2 : ℚ)) none).2 = 1 ∧
     (draw (draw (draw build false IDENTITY_MATRIX none).1 false
           IDENTITY_MATRIX none).1 false
         (List.replicate 16 (2 : ℚ)) none).1.current_transform
       = List.replicate 16 (2 : ℚ)) :=
  ⟨by decide, by decide,
   draw_transform_dirty_protocol build false false false IDENTITY_MATRIX
     (List.replicate 16 (2 : ℚ)) none none none (by decide) (by decide)⟩

/-- C5: upload with a batch larger than supported_instances reallocates
    the instance buffer exactly once, to capacity exactly the batch
    length, and records that length as supported_instances; an upload
    whose nonempty batch fits performs no reallocation and leaves
    supported_instances unchanged. -/
theorem upload_growth_policy (p q : Pipeline) (big small : List Instance)
    (hgrow : big.length > p.supported_instances)
    (hne : small ≠ []) (hfit : small.length ≤ q.supported_instances) :
    (upload p big).1.supported_instances = big.length ∧
    (upload p big).1.instance_buffer_capacity = big.length ∧
    allocs (upload p big).2 = [Event.allocInstanceBuffer big.length] ∧
    allocs (upload q small).2 = [] ∧
    (upload q small).1.supported_instances = q.supported_instances := by
  have hbne : big ≠ [] := by
    intro h
    rw [h] at hgrow
    simp at hgrow
  have hnfit : ¬ small.length > q.supported_instances := by omega
  refine ⟨?_, ?_, ?_, ?_, ?_⟩
  · rw [upload_fst_eq, if_neg hbne, if_pos hgrow]
  · rw [upload_fst_eq, if_neg hbne, if_pos hgrow]
  · simp [upload, hbne, hgrow, allocs, isAlloc, instanceSizeBytes,
      List.length_eq_zero, List.filter_append]
  · simp [upload, hne, hnfit, allocs, isAlloc, instanceSizeBytes,
      List.length_eq_zero, List.filter_append]
  · rw [upload_fst_eq, if_neg hne, if_neg hnfit]

/-- C5 witness: uploading 60,000 instances to a fresh Pipeline
    (supported_instances = 50,000) reallocates once to capacity 60,000;
    a following single-instance upload into the grown Pipeline does not
    reallocate. -/
theorem upload_growth_policy_witness :
    ((List.replicate 60000 Instance0).length > build.supported_instances) ∧
    ([Instance0] ≠ ([] : List Instance)) ∧
    ([Instance0].length
       ≤ (upload build (List.replicate 60000 Instance0)).1.supported_instances) ∧
    ((upload build (List.replicate 60000 Instance0)).1.supported_instances
       = (List.replicate 60000 Instance0).length ∧
     (upload build (List.replicate 60000 Instance0)).1.instance_buffer_capacity
       = (List.replicate 60000 Instance0).length ∧
     allocs (upload build (List.replicate 60000 Instance0)).2
       = [Event.allocInstanceBuffer (List.replicate 60000 Instance0).length] ∧
     allocs (upload (upload build (List.replicate 60000 Instance0)).1
         [Instance0]).2 = [] ∧
     (upload (upload build (List.replicate 60000 Instance0)).1
         [Instance0]).1.supported_instances
       = (upload build (List.replicate 60000 Instance0)).1.supported_instances) := by
  have hlen : (List.replicate 60000 Instance0).length = 60000 :=
    List.length_replicate 60000 Instance0
  have hrne : List.replicate 60000 Instance0 ≠ [] := by
    intro h
    have h0 := congrArg List.length h
    rw [hlen] at h0
    simp at h0
  have hgrow : (List.replicate 60000 Instance0).length
      > build.supported_instances := by
    rw [hlen]
    norm_num [build, INITIAL_AMOUNT]
  have hsup : (upload build (List.replicate 60000 Instance0)).1.supported_instances
      = (List.replicate 60000 Instance0).length := by
    rw [upload_fst_eq, if_neg hrne, if_pos hgrow]
  have hfit : [Instance0].length
      ≤ (upload build (List.replicate 60000 Instance0)).1.supported_instances := by
    rw [hsup, hlen]
    norm_num
  exact ⟨hgrow, by simp, hfit,
    upload_growth_policy build
      (upload build (List.replicate 60000 Instance0)).1
      (List.replicate 60000 Instance0) [Instance0] hgrow (by simp) hfit⟩

/-- C6: from construction, any sequence of upload and draw calls keeps
    current_instances within supported_instances, supported_instances
    never decreases across further calls, and the initial capacity is the
    50,000-instance baseline. -/
theorem pipeline_instance_count_invariant (cs ds : List Call) :
    build.supported_instances = 50000 ∧
    (run cs).current_instances ≤ (run cs).supported_instances ∧
    (run cs).supported_instances ≤ (run (cs ++ ds)).supported_instances := by
  refine ⟨rfl, foldl_current_le cs build (Nat.zero_le _), ?_⟩
  rw [run, run, List.foldl_append]
  exact foldl_supported_mono ds _

/-- C7: upload with an empty batch sets current_instances to 0, records no
    GPU command (no buffer write, no reallocation), leaves
    supported_instances and the buffer capacity unchanged, and a following
    draw records a draw call of 0 instances. -/
theorem upload_empty_noop (p : Pipeline) (d : Bool) (t : List ℚ)
    (r : Option Region) :
    (upload p []).1.current_instances = 0 ∧
    (upload p []).2 = [] ∧
    (upload p []).1.supported_instances = p.supported_instances ∧
    (upload p []).1.instance_buffer_capacity = p.instance_buffer_capacity ∧
    drawCalls (draw (upload p []).1 d t r).2 = [Event.drawQuads 0 4 0 0] := by
  refine ⟨by simp [upload], by simp [upload], by simp [upload],
    by simp [upload], ?_⟩
  have hc : (upload p []).1.current_instances = 0 := by simp [upload]
  by_cases ht : t = (upload p []).1.current_transform <;> cases r <;>
    simp [draw, ht, drawCalls, isDrawCall, List.filter_append, hc]

/-- C9: every draw call records exactly one render pass begin, with load
    semantics on the color target and store semantics; it records the
    scissor rectangle exactly when a region is supplied; and it records
    exactly one instanced draw, of vertices 0..4 over instances
    0..current_instances, as the last command. -/
theorem draw_render_pass_protocol (p : Pipeline) (d : Bool) (t : List ℚ)
    (r : Option Region) :
    passBegins (draw p d t r).2
      = [Event.beginRenderPass LoadOp.load StoreOp.store d] ∧
    scissors (draw p d t r).2
      = (match r with
         | some reg => [Event.setScissorRect reg.x reg.y reg.width reg.height]
         | none => []) ∧
    drawCalls (draw p d t r).2
      = [Event.drawQuads 0 4 0 p.current_instances] ∧
    (draw p d t r).2.getLast?
      = some (Event.drawQuads 0 4 0 p.current_instances) := by
  have hc : (draw p d t r).1.current_instances = p.current_instances := by
    rw [draw_fst_eq]
    by_cases ht : t = p.current_transform <;> simp [ht]
  refine ⟨?_, ?_, ?_, ?_⟩ <;>
    by_cases ht : t = p.current_transform <;> cases r <;>
      simp [draw, ht, passBegins, isPassBegin, scissors, isScissor,
        drawCalls, isDrawCall, List.filter_append, getLast_append_singleton,
        ← List.append_assoc]

/-- C10: after build the cached last-applied transform is the all-zeros
    array while the uniform buffer holds the identity matrix, so the first
    draw on a fresh Pipeline uploads for every transform except all-zeros;
    in particular a first draw with the identity matrix re-uploads it even
    though the buffer already contains it. -/
theorem build_transform_cache_mismatch (d : Bool) (t : List ℚ)
    (r : Option Region) (ht : t ≠ List.replicate 16 0) :
    build.current_transform = List.replicate 16 0 ∧
    build.transform_buffer = IDENTITY_MATRIX ∧
    transformWrites (draw build d t r).2 = 1 ∧
    transformWrites (draw build d (List.replicate 16 0) r).2 = 0 ∧
    transformWrites (draw build d IDENTITY_MATRIX r).2 = 1 ∧
    (draw build d IDENTITY_MATRIX r).1.transform_buffer
      = IDENTITY_MATRIX := by
  refine ⟨rfl, rfl, ?_, ?_, ?_, ?_⟩
  · rw [draw_transformWrites_eq]
    exact if_neg ht
  · rw [draw_transformWrites_eq,
      if_pos (show List.replicate 16 (0 : ℚ) = build.current_transform
        from rfl)]
  · rw [draw_transformWrites_eq,
      if_neg (show ¬ IDENTITY_MATRIX = build.current_transform by decide)]
  · rw [draw_fst_eq,
      if_neg (show ¬ IDENTITY_MATRIX = build.current_transform by decide)]

/-- C10 witness: the identity matrix differs from the all-zeros cache, so
    the very first draw with the identity uploads it. -/
theorem build_transform_cache_mismatch_witness :
    (IDENTITY_MATRIX ≠ List.replicate 16 0) ∧
    (build.current_transform = List.replicate 16 0 ∧
     build.transform_buffer = IDENTITY_MATRIX ∧
     transformWrites (draw build false IDENTITY_MATRIX none).2 = 1 ∧
     transformWrites (draw build false (List.replicate 16 0) none).2 = 0 ∧
     transformWrites (draw build false IDENTITY_MATRIX none).2 = 1 ∧
     (draw build false IDENTITY_MATRIX none).1.transform_buffer
       = IDENTITY_MATRIX) :=
  ⟨by decide,
   build_transform_cache_mismatch false IDENTITY_MATRIX none (by decide)⟩

/-- C3: when the pixel rectangle lies inside bounds no clipping happens:
    the instance carries the input rectangles verbatim under the vertical
    flip convention (left_top.y and tex_left_top.y take the max y values,
    right_bottom.y and tex_right_bottom.y the min y values), the depth
    from extra.z and the color unchanged. -/
theorem from_vertex_inside_verbatim (v : GlyphVertex)
    (h1 : v.pixel_coords.max.x ≤ v.bounds.max.x)
    (h2 : v.bounds.min.x ≤ v.pixel_coords.min.x)
    (h3 : v.pixel_coords.max.y ≤ v.bounds.max.y)
    (h4 : v.bounds.min.y ≤ v.pixel_coords.min.y) :
    Instance.from_vertex v =
      { left_top := (v.pixel_coords.min.x, v.pixel_coords.max.y, v.extra.z),
        right_bottom := (v.pixel_coords.max.x, v.pixel_coords.min.y),
        tex_left_top := (v.tex_coords.min.x, v.tex_coords.max.y),
        tex_right_bottom := (v.tex_coords.max.x, v.tex_coords.min.y),
        color := v.extra.color } := by
  simp [Instance.from_vertex, clampMaxX, clampMinX, clampMaxY, clampMinY,
    not_lt.mpr h1, not_lt.mpr h2, not_lt.mpr h3, not_lt.mpr h4]

/-- C3 witness: a rectangle strictly inside bounds is passed through
    verbatim. -/
theorem from_vertex_inside_verbatim_witness :
    (insideVertex.pixel_coords.max.x ≤ insideVertex.bounds.max.x) ∧
    (insideVertex.bounds.min.x ≤ insideVertex.pixel_coords.min.x) ∧
    (insideVertex.pixel_coords.max.y ≤ insideVertex.bounds.max.y) ∧
    (insideVertex.bounds.min.y ≤ insideVertex.pixel_coords.min.y) ∧
    Instance.from_vertex insideVertex =
      { left_top := (insideVertex.pixel_coords.min.x,
                     insideVertex.pixel_coords.max.y, insideVertex.extra.z),
        right_bottom := (insideVertex.pixel_coords.max.x,
                         insideVertex.pixel_coords.min.y),
        tex_left_top := (insideVertex.tex_coords.min.x,
                         insideVertex.tex_coords.max.y),
        tex_right_bottom := (insideVertex.tex_coords.max.x,
                             insideVertex.tex_coords.min.y),
        color := insideVertex.extra.color } :=
  ⟨by norm_num [insideVertex], by norm_num [insideVertex],
   by norm_num [insideVertex], by norm_num [insideVertex],
   from_vertex_inside_verbatim insideVertex (by norm_num [insideVertex])
     (by norm_num [insideVertex]) (by norm_num [insideVertex])
     (by norm_num [insideVertex])⟩

/-- C4: the four side clamps run sequentially in source order (max-x,
    min-x, max-y, min-y) and each recomputes the old extent from the
    current, possibly already-clamped rectangle: when all four sides
    exceed bounds, the divisors used are, in order, the original width,
    the width remaining after the max-x clamp, the original height, and
    the height remaining after the max-y clamp. -/
theorem from_vertex_sequential_clamp_order (v : GlyphVertex)
    (h1 : v.bounds.max.x < v.pixel_coords.max.x)
    (h2 : v.pixel_coords.min.x < v.bounds.min.x)
    (h3 : v.bounds.max.y < v.pixel_coords.max.y)
    (h4 : v.pixel_coords.min.y < v.bounds.min.y) :
    from_vertexDivisors v =
      [v.pixel_coords.width,
       v.bounds.max.x - v.pixel_coords.min.x,
       v.pixel_coords.height,
       v.bounds.max.y - v.pixel_coords.min.y] := by
  simp [from_vertexDivisors, clampMaxX, clampMinX, clampMaxY, Rect.width,
    Rect.height, h1, h2, h3, h4]

/-- C4 witness: a rectangle exceeding all four sides of bounds; the min-x
    clamp divides by the width left by the max-x clamp (70, not the
    original 120), and likewise on the y axis. -/
theorem from_vertex_sequential_clamp_order_witness :
    (cornerVertex.bounds.max.x < cornerVertex.pixel_coords.max.x) ∧
    (cornerVertex.pixel_coords.min.x < cornerVertex.bounds.min.x) ∧
    (cornerVertex.bounds.max.y < cornerVertex.pixel_coords.max.y) ∧
    (cornerVertex.pixel_coords.min.y < cornerVertex.bounds.min.y) ∧
    from_vertexDivisors cornerVertex =
      [cornerVertex.pixel_coords.width,
       cornerVertex.bounds.max.x - cornerVertex.pixel_coords.min.x,
       cornerVertex.pixel_coords.height,
       cornerVertex.bounds.max.y - cornerVertex.pixel_coords.min.y] :=
  ⟨by norm_num [cornerVertex], by norm_num [cornerVertex],
   by norm_num [cornerVertex], by norm_num [cornerVertex],
   from_vertex_sequential_clamp_order cornerVertex
     (by norm_num [cornerVertex]) (by norm_num [cornerVertex])
     (by norm_num [cornerVertex]) (by norm_num [cornerVertex])⟩

/-- C2: a rectangle exceeding bounds on exactly one side keeps the
    opposite-side UV coordinate and scales the clamped-side UV extent by
    the surviving fraction of the pixel extent; in the spec scenario the
    instance gets right_bottom.x = 60 and tex_right_bottom.x = 0.6. -/
theorem from_vertex_single_side_clip (v : GlyphVertex) (sd : Side)
    (hwx : v.pixel_coords.min.x < v.pixel_coords.max.x)
    (hwy : v.pixel_coords.min.y < v.pixel_coords.max.y)
    (h : exceedsOnly sd v) :
    singleSideClipSpec sd v (Instance.from_vertex v) ∧
    (Instance.from_vertex scenarioVertex).right_bottom.1 = 60 ∧
    (Instance.from_vertex scenarioVertex).tex_right_bottom.1 = 3 / 5 := by
  refine ⟨?_, ?_, ?_⟩
  · have hwx0 : v.pixel_coords.max.x - v.pixel_coords.min.x ≠ 0 :=
      sub_ne_zero.mpr hwx.ne'
    have hwy0 : v.pixel_coords.max.y - v.pixel_coords.min.y ≠ 0 :=
      sub_ne_zero.mpr hwy.ne'
    cases sd with
    | maxX =>
        obtain ⟨h1, h2, h3, h4⟩ := h
        simp [singleSideClipSpec, Instance.from_vertex, clampMaxX,
          clampMinX, clampMaxY, clampMinY, Rect.width, Rect.height, h1,
          not_lt.mpr h2, not_lt.mpr h3, not_lt.mpr h4, hwx0, hwy0]
    | minX =>
        obtain ⟨h1, h2, h3, h4⟩ := h
        simp [singleSideClipSpec, Instance.from_vertex, clampMaxX,
          clampMinX, clampMaxY, clampMinY, Rect.width, Rect.height, h2,
          not_lt.mpr h1, not_lt.mpr h3, not_lt.mpr h4, hwx0, hwy0]
    | maxY =>
        obtain ⟨h1, h2, h3, h4⟩ := h
        simp [singleSideClipSpec, Instance.from_vertex, clampMaxX,
          clampMinX, clampMaxY, clampMinY, Rect.width, Rect.height, h3,
          not_lt.mpr h1, not_lt.mpr h2, not_lt.mpr h4, hwx0, hwy0]
    | minY =>
        obtain ⟨h1, h2, h3, h4⟩ := h
        simp [singleSideClipSpec, Instance.from_vertex, clampMaxX,
          clampMinX, clampMaxY, clampMinY, Rect.width, Rect.height, h4,
          not_lt.mpr h1, not_lt.mpr h2, not_lt.mpr h3, hwx0, hwy0]
  · norm_num [Instance.from_vertex, clampMaxX, clampMinX, clampMaxY,
      clampMinY, scenarioVertex, Rect.width, Rect.height]
  · norm_num [Instance.from_vertex, clampMaxX, clampMinX, clampMaxY,
      clampMinY, scenarioVertex, Rect.width, Rect.height]

/-- C2 witness: the spec scenario exceeds bounds on the max-x side only
    and satisfies the single-side clip contract. -/
theorem from_vertex_single_side_clip_witness :
    (scenarioVertex.pixel_coords.min.x < scenarioVertex.pixel_coords.max.x) ∧
    (scenarioVertex.pixel_coords.min.y < scenarioVertex.pixel_coords.max.y) ∧
    exceedsOnly Side.maxX scenarioVertex ∧
    (singleSideClipSpec Side.maxX scenarioVertex
        (Instance.from_vertex scenarioVertex) ∧
     (Instance.from_vertex scenarioVertex).right_bottom.1 = 60 ∧
     (Instance.from_vertex scenarioVertex).tex_right_bottom.1 = 3 / 5) :=
  ⟨by norm_num [scenarioVertex], by norm_num [scenarioVertex],
   by norm_num [exceedsOnly, scenarioVertex],
   from_vertex_single_side_clip scenarioVertex Side.maxX
     (by norm_num [scenarioVertex]) (by norm_num [scenarioVertex])
     (by norm_num [exceedsOnly, scenarioVertex])⟩

/-- C8 counterexample: outsideVertex is fully outside bounds on the x
    axis (its min.x is at or beyond bounds.max.x), yet the produced
    instance is not zero-area: the clamp leaves an inverted rectangle of
    width -40, signed area -2000. -/
theorem from_vertex_fully_outside_not_zero_area :
    (outsideVertex.bounds.max.x ≤ outsideVertex.pixel_coords.min.x) ∧
    ((Instance.from_vertex outsideVertex).right_bottom.1
        - (Instance.from_vertex outsideVertex).left_top.1) *
      ((Instance.from_vertex outsideVertex).left_top.2.1
        - (Instance.from_vertex outsideVertex).right_bottom.2) ≠ 0 := by
  norm_num [Instance.from_vertex, clampMaxX, clampMinX, clampMaxY,
    clampMinY, outsideVertex, Rect.width, Rect.height]

/-- C8 (amended): for normal input (positive pixel extents, well-formed
    bounds) every division from_vertex performs has a positive divisor,
    and a rectangle fully outside bounds beyond any of the four sides is
    clamped mechanically into a degenerate instance of non-positive extent
    on that axis (zero or inverted, rather than necessarily zero-area),
    never an error. -/
theorem from_vertex_degenerate_mechanical (v : GlyphVertex) (sd : Side)
    (hwx : v.pixel_coords.min.x < v.pixel_coords.max.x)
    (hwy : v.pixel_coords.min.y < v.pixel_coords.max.y)
    (hbx : v.bounds.min.x ≤ v.bounds.max.x)
    (hby : v.bounds.min.y ≤ v.bounds.max.y) :
    allPos (from_vertexDivisors v) ∧
    (fullyOutside sd v →
      degenerateOn sd v (Instance.from_vertex v)) := by
  constructor
  · by_cases c1 : v.bounds.max.x < v.pixel_coords.max.x <;>
      by_cases c2 : v.pixel_coords.min.x < v.bounds.min.x <;>
        by_cases c3 : v.bounds.max.y < v.pixel_coords.max.y <;>
          by_cases c4 : v.pixel_coords.min.y < v.bounds.min.y <;>
          · intro q hq
            simp [from_vertexDivisors, clampMaxX, clampMinX, clampMaxY,
              Rect.width, Rect.height, c1, c2, c3, c4] at hq <;>
            rcases hq with rfl | rfl | rfl | rfl <;> linarith
  · intro hout
    cases sd with
    | maxX =>
        simp only [fullyOutside] at hout
        have c1 : v.bounds.max.x < v.pixel_coords.max.x :=
          lt_of_le_of_lt hout hwx
        have c2 : ¬ v.pixel_coords.min.x < v.bounds.min.x :=
          not_lt.mpr (le_trans hbx hout)
        by_cases c3 : v.bounds.max.y < v.pixel_coords.max.y <;>
          by_cases c4 : v.pixel_coords.min.y < v.bounds.min.y <;>
            simp [degenerateOn, Instance.from_vertex, clampMaxX, clampMinX,
              clampMaxY, clampMinY, Rect.width, Rect.height, c1, c2, c3, c4,
              hout]
    | minX =>
        simp only [fullyOutside] at hout
        have c1 : ¬ v.bounds.max.x < v.pixel_coords.max.x :=
          not_lt.mpr (le_trans hout hbx)
        have c2 : v.pixel_coords.min.x < v.bounds.min.x :=
          lt_of_lt_of_le hwx hout
        by_cases c3 : v.bounds.max.y < v.pixel_coords.max.y <;>
          by_cases c4 : v.pixel_coords.min.y < v.bounds.min.y <;>
            simp [degenerateOn, Instance.from_vertex, clampMaxX, clampMinX,
              clampMaxY, clampMinY, Rect.width, Rect.height, c1, c2, c3, c4,
              hout]
    | maxY =>
        simp only [fullyOutside] at hout
        have c3 : v.bounds.max.y < v.pixel_coords.max.y :=
          lt_of_le_of_lt hout hwy
        have c4 : ¬ v.pixel_coords.min.y < v.bounds.min.y :=
          not_lt.mpr (le_trans hby hout)
        by_cases c1 : v.bounds.max.x < v.pixel_coords.max.x <;>
          by_cases c2 : v.pixel_coords.min.x < v.bounds.min.x <;>
            simp [degenerateOn, Instance.from_vertex, clampMaxX, clampMinX,
              clampMaxY, clampMinY, Rect.width, Rect.height, c1, c2, c3, c4,
              hout]
    | minY =>
        simp only [fullyOutside] at hout
        have c3 : ¬ v.bounds.max.y < v.pixel_coords.max.y :=
          not_lt.mpr (le_trans hout hby)
        have c4 : v.pixel_coords.min.y < v.bounds.min.y :=
          lt_of_lt_of_le hwy hout
        by_cases c1 : v.bounds.max.x < v.pixel_coords.max.x <;>
          by_cases c2 : v.pixel_coords.min.x < v.bounds.min.x <;>
            simp [degenerateOn, Instance.from_vertex, clampMaxX, clampMinX,
              clampMaxY, clampMinY, Rect.width, Rect.height, c1, c2, c3, c4,
              hout]

/-- C8 witness: the rectangle fully beyond the max-x side satisfies the
    normal-input hypotheses; all divisors are positive and the clamp
    degenerates it on the x axis. -/
theorem from_vertex_degenerate_mechanical_witness :
    (outsideVertex.pixel_coords.min.x < outsideVertex.pixel_coords.max.x) ∧
    (outsideVertex.pixel_coords.min.y < outsideVertex.pixel_coords.max.y) ∧
    (outsideVertex.bounds.min.x ≤ outsideVertex.bounds.max.x) ∧
    (outsideVertex.bounds.min.y ≤ outsideVertex.bounds.max.y) ∧
    (allPos (from_vertexDivisors outsideVertex) ∧
     (fullyOutside Side.maxX outsideVertex →
       degenerateOn Side.maxX outsideVertex
         (Instance.from_vertex outsideVertex))) :=
  ⟨by norm_num [outsideVertex], by norm_num [outsideVertex],
   by norm_num [outsideVertex], by norm_num [outsideVertex],
   from_vertex_degenerate_mechanical outsideVertex Side.maxX
     (by norm_num [outsideVertex]) (by norm_num [outsideVertex])
     (by norm_num [outsideVertex]) (by norm_num [outsideVertex])⟩

end WgpuGlyph
